import Mathlib

/-!
Shallow embedding of the gifting confirmation page
(src/app/events/[id]/performers/[performerId]/confirm/page.tsx).

The page's core is a submission controller: a `useEffect` initializer that
loads the payment draft (or navigates back), and `handleConfirm`, which
guards against double submission with the `isSubmitting` flag, checks the
session, resolves the event from a static catalog, builds a gifting record
and awaits `saveGifting`, routing the outcome to navigation or an error
notification.

External collaborators (`getPaymentInfo`, `getUserSession`, `saveGifting`,
`router.push`, `toast`) are modelled as inputs (the draft and session
values, the persistence outcome) and as an emitted list of `Effect`s.
`handleConfirm` has a single suspension point, the `await saveGifting(...)`;
it is split into `confirmPhase1` (everything before the await, executed
synchronously) and `confirmResume` (the continuation on the persistence
outcome), so that interleavings of a second confirmation gesture with an
in-flight persistence call can be stated faithfully.
-/

namespace EventGifting

/-- Payment draft as stored by the payment-info utility and snapshotted into
component state: `performerName`, `amount` (a numeric string), `comment`
(a plain string; the empty string plays the role of "no comment"). -/
structure PaymentDraft where
  performerName : String
  amount : String
  comment : String
  deriving DecidableEq, Repr

/-- User session as returned by `getUserSession`; the page reads
`session.email` and `session.name`. -/
structure Session where
  email : String
  name : String
  deriving DecidableEq, Repr

/-- Event catalog entry: `{ id, title }`. -/
structure EventRef where
  id : Int
  title : String
  deriving DecidableEq, Repr

/-- The record passed to `saveGifting`. `amount` is
`Number.parseInt(paymentInfo.amount)`, so it may be NaN (modelled as
`none`); `comment` is `paymentInfo.comment || undefined`. -/
structure GiftingRecord where
  user_id : String
  user_name : String
  artist_id : String
  artist_name : String
  event_id : Int
  event_name : String
  amount : Option Int
  comment : Option String
  deriving DecidableEq, Repr

/-- Accumulate the value of a leading run of decimal digits, stopping at the
first non-digit, as `Number.parseInt` does. -/
def digitsVal : List Char → Nat → Nat
  | [], acc => acc
  | c :: cs, acc => if c.isDigit then digitsVal cs (acc * 10 + (c.toNat - 48)) else acc

/-- Parse a leading run of decimal digits; `none` when the first character
is not a digit. -/
def parseDigits : List Char → Option Nat
  | [] => none
  | c :: cs => if c.isDigit then some (digitsVal (c :: cs) 0) else none

/-- Model of `Number.parseInt` on a base-10 string: skip leading spaces,
read an optional sign and then a leading run of decimal digits; `none`
models NaN (no digit found). -/
def parseIntJS (s : String) : Option Int :=
  match s.toList.dropWhile (fun c => c = ' ') with
  | [] => none
  | c :: cs =>
    if c = '-' then (parseDigits cs).map (fun n => -(n : Int))
    else if c = '+' then (parseDigits cs).map (fun n => (n : Int))
    else (parseDigits (c :: cs)).map (fun n => (n : Int))

/-- The static event catalog declared inline in `handleConfirm`, keyed by
the raw route-parameter string `params.id`. -/
def lookupEvent : String → Option EventRef
  | "1" => some ⟨1, "サマーフェス2025"⟩
  | "2" => some ⟨2, "5周年ライブin横アリ"⟩
  | "3" => some ⟨3, "生誕祭2025"⟩
  | "4" => some ⟨4, "ウィンターライブ2024"⟩
  | _ => none

/-- Catalog lookup with fallback:
`events[params.id] || { id: eventId, title: "イベント" }`. -/
def resolveEvent (idStr : String) (eventId : Int) : EventRef :=
  (lookupEvent idStr).getD ⟨eventId, "イベント"⟩

/-- Observable side effect issued by the controller: a `saveGifting` call,
an error toast, or a `router.push` (wrapped in `setTimeout(_, delayMs)`;
`delayMs = 0` for an immediate push). -/
inductive Effect where
  | save (record : GiftingRecord)
  | notifyError (title description : String)
  | navigate (delayMs : Nat) (path : String)
  deriving DecidableEq, Repr

/-- True exactly on `saveGifting` call effects. -/
def Effect.isSave : Effect → Bool
  | Effect.save _ => true
  | _ => false

/-- True exactly on toast effects. -/
def Effect.isNotify : Effect → Bool
  | Effect.notifyError _ _ => true
  | _ => false

/-- True exactly on navigation effects. -/
def Effect.isNav : Effect → Bool
  | Effect.navigate _ _ => true
  | _ => false

/-- Number of `saveGifting` invocations in a trace. -/
def countSaves (tr : List Effect) : Nat := (tr.filter Effect.isSave).length

/-- Number of toast notifications in a trace. -/
def countNotifies (tr : List Effect) : Nat := (tr.filter Effect.isNotify).length

/-- Number of navigations in a trace. -/
def countNavs (tr : List Effect) : Nat := (tr.filter Effect.isNav).length

/-- Path `/events/{eventId}/performers/{performerId}`: the draft-entry
screen the initializer navigates back to. -/
def draftEntryPath (eventId performerId : Int) : String :=
  "/events/" ++ toString eventId ++ "/performers/" ++ toString performerId

/-- Path `/events/{eventId}/performers/{performerId}/thanks`. -/
def thanksPath (eventId performerId : Int) : String :=
  draftEntryPath eventId performerId ++ "/thanks"

/-- The login entry point `/login`. -/
def loginPath : String := "/login"

/-- Toast title used on every error path. -/
def errorTitle : String := "エラー"

/-- Toast description on the missing-session path. -/
def loginRequiredMessage : String := "ログインが必要です"

/-- Fallback toast description when a failure result carries no reason:
`result.error || "ギフティングの保存に失敗しました"`. -/
def saveFailedMessage : String := "ギフティングの保存に失敗しました"

/-- Toast description of the catch-all handler. -/
def faultMessage : String := "ギフティングの処理中にエラーが発生しました"

/-- Description shown for an explicit failure result: `result.error` when
present and truthy (a missing or empty `error` string falls back to the
generic message, since `""` is falsy under `||`). -/
def failureMessage : Option String → String
  | some e => if e = "" then saveFailedMessage else e
  | none => saveFailedMessage

/-- Component state relevant to the workflow: the `isSubmitting` flag and
the `paymentInfo` snapshot. -/
structure CState where
  isSubmitting : Bool
  paymentInfo : Option PaymentDraft
  deriving DecidableEq, Repr

/-- Outcome of the awaited `saveGifting` call: `{ success: true }`,
`{ success: false, error }`, or a thrown fault (rejected promise). -/
inductive SaveOutcome where
  | ok
  | failed (error : Option String)
  | fault
  deriving DecidableEq, Repr

/-- The `useEffect` initializer: read `getPaymentInfo()`; snapshot it into
state when present, otherwise navigate back to the draft-entry screen.
The `isSubmitting` flag starts at `false` (its `useState` initial value). -/
def initPage (draft : Option PaymentDraft) (eventId performerId : Int) :
    CState × List Effect :=
  match draft with
  | some info => ({ isSubmitting := false, paymentInfo := some info }, [])
  | none =>
    ({ isSubmitting := false, paymentInfo := none },
     [Effect.navigate 0 (draftEntryPath eventId performerId)])

/-- The record literal passed to `saveGifting`. -/
def buildRecord (session : Session) (info : PaymentDraft) (event : EventRef)
    (eventId performerId : Int) : GiftingRecord :=
  { user_id := session.email
    user_name := session.name
    artist_id := "artist-" ++ toString performerId
    artist_name := info.performerName
    event_id := eventId
    event_name := event.title
    amount := parseIntJS info.amount
    comment := if info.comment = "" then none else some info.comment }

/-- State of one `handleConfirm` invocation at its single suspension point:
either it already returned (`done`), or it has issued the `saveGifting`
call and is awaiting its outcome (`awaitSave`). Both carry the component
state and the effects emitted so far. -/
inductive Pending where
  | done (s : CState) (trace : List Effect)
  | awaitSave (record : GiftingRecord) (s : CState) (trace : List Effect)
  deriving DecidableEq, Repr

/-- Synchronous prefix of `handleConfirm`, up to the `await saveGifting`:
return at once when `isSubmitting`; otherwise set `isSubmitting := true`;
when the session is absent, toast the login-required error and push
`/login`; otherwise resolve the event and, when a `paymentInfo` snapshot
is present, issue the `saveGifting` call with the built record (when the
snapshot is absent the `if (paymentInfo)` body is skipped and the function
falls off the end). -/
def confirmPhase1 (s : CState) (session : Option Session) (idStr : String)
    (eventId performerId : Int) : Pending :=
  if s.isSubmitting then Pending.done s []
  else
    let s1 : CState := { isSubmitting := true, paymentInfo := s.paymentInfo }
    match session with
    | none =>
      Pending.done s1
        [Effect.notifyError errorTitle loginRequiredMessage,
         Effect.navigate 0 loginPath]
    | some sess =>
      let event := resolveEvent idStr eventId
      match s.paymentInfo with
      | none => Pending.done s1 []
      | some info =>
        let record := buildRecord sess info event eventId performerId
        Pending.awaitSave record s1 [Effect.save record]

/-- Continuation of `handleConfirm` after the await. On success the state
is left as is and `setTimeout(..., 500)` schedules the push to the thanks
path; on an explicit failure result the failure toast is shown and
`isSubmitting` is reset; a thrown fault lands in the `catch` block, which
shows the generic toast and resets `isSubmitting`. -/
def confirmResume (p : Pending) (outcome : SaveOutcome)
    (eventId performerId : Int) : CState × List Effect :=
  match p with
  | Pending.done s trace => (s, trace)
  | Pending.awaitSave _ s trace =>
    match outcome with
    | SaveOutcome.ok =>
      (s, trace ++ [Effect.navigate 500 (thanksPath eventId performerId)])
    | SaveOutcome.failed e =>
      ({ isSubmitting := false, paymentInfo := s.paymentInfo },
       trace ++ [Effect.notifyError errorTitle (failureMessage e)])
    | SaveOutcome.fault =>
      ({ isSubmitting := false, paymentInfo := s.paymentInfo },
       trace ++ [Effect.notifyError errorTitle faultMessage])

/-- One complete, uninterleaved run of `handleConfirm`: the synchronous
prefix followed by the continuation on the given persistence outcome. -/
def handleConfirm (s : CState) (session : Option Session)
    (outcome : SaveOutcome) (idStr : String) (eventId performerId : Int) :
    CState × List Effect :=
  confirmResume (confirmPhase1 s session idStr eventId performerId) outcome
    eventId performerId

/-- Arguments of one confirmation gesture: the session and persistence
outcome the environment supplies for it, plus the route parameters. -/
structure ConfirmCall where
  session : Option Session
  outcome : SaveOutcome
  idStr : String
  eventId : Int
  performerId : Int

/-- Run a sequence of complete confirmation gestures, threading the state
and concatenating the traces. -/
def runConfirms : CState → List ConfirmCall → CState × List Effect
  | s, [] => (s, [])
  | s, c :: rest =>
    let r := handleConfirm s c.session c.outcome c.idStr c.eventId c.performerId
    let r2 := runConfirms r.1 rest
    (r2.1, r.2 ++ r2.2)

/-- A `handleConfirm` invocation received while `isSubmitting` is set
returns at the guard: the state is unchanged and no effect is issued. -/
theorem handleConfirm_of_isSubmitting (s : CState) (h : s.isSubmitting = true)
    (sess : Option Session) (out : SaveOutcome) (idStr : String) (e p : Int) :
    handleConfirm s sess out idStr e p = (s, []) := by
  simp [handleConfirm, confirmPhase1, confirmResume, h]

/-- Any sequence of confirmation gestures starting from a state with
`isSubmitting` set leaves the state unchanged and issues no effect. -/
theorem runConfirms_of_isSubmitting (s : CState) (h : s.isSubmitting = true)
    (calls : List ConfirmCall) : runConfirms s calls = (s, []) := by
  induction calls with
  | nil => rfl
  | cons c rest ih =>
    simp [runConfirms, handleConfirm_of_isSubmitting s h, ih]

/-- With the guard down, a session present and a draft snapshot present,
the synchronous prefix of `handleConfirm` sets the flag and issues the
`saveGifting` call with the built record. -/
theorem confirmPhase1_submits (info : PaymentDraft) (sess : Session)
    (idStr : String) (e p : Int) :
    confirmPhase1 ⟨false, some info⟩ (some sess) idStr e p
      = Pending.awaitSave (buildRecord sess info (resolveEvent idStr e) e p)
          { isSubmitting := true, paymentInfo := some info }
          [Effect.save (buildRecord sess info (resolveEvent idStr e) e p)] := by
  simp [confirmPhase1]

/-- Claim C1 counterexample: with a valid draft and no session, the claim
says the submission state is left unchanged (not Submitting) and a later
`confirm()` is still accepted. In the code `setIsSubmitting(true)` runs
before the session check and is never reset on the no-session path, so the
state ends with `isSubmitting = true` and a later `confirm()` returns at
the guard with no effect (it is ignored, not accepted). -/
theorem C1_counterexample :
    ((handleConfirm ⟨false, some ⟨"Aoi", "3000", "頑張って"⟩⟩ none
        SaveOutcome.ok "2" 2 7).1.isSubmitting = true)
    ∧ (handleConfirm
        (handleConfirm ⟨false, some ⟨"Aoi", "3000", "頑張って"⟩⟩ none
          SaveOutcome.ok "2" 2 7).1
        (some ⟨"u1", "Taro"⟩) SaveOutcome.ok "2" 2 7).2 = [] := by
  decide

/-- Claim C1 (amended): for every confirmation attempt in which the
session source returns none, `confirm()` issues exactly one error
notification and exactly one navigation to the login entry point and makes
zero persistence calls; however the controller transitions to `Submitting`
(the flag is set before the session check and never cleared on this path)
and stays there, so every later `confirm()` on this instance is ignored. -/
theorem C1_no_session (pi : Option PaymentDraft) (out : SaveOutcome)
    (idStr : String) (e p : Int) :
    handleConfirm ⟨false, pi⟩ none out idStr e p
      = ({ isSubmitting := true, paymentInfo := pi },
         [Effect.notifyError errorTitle loginRequiredMessage,
          Effect.navigate 0 loginPath])
    ∧ countNotifies (handleConfirm ⟨false, pi⟩ none out idStr e p).2 = 1
    ∧ countNavs (handleConfirm ⟨false, pi⟩ none out idStr e p).2 = 1
    ∧ countSaves (handleConfirm ⟨false, pi⟩ none out idStr e p).2 = 0
    ∧ ∀ calls : List ConfirmCall,
        runConfirms (handleConfirm ⟨false, pi⟩ none out idStr e p).1 calls
          = ((handleConfirm ⟨false, pi⟩ none out idStr e p).1, []) := by
  have key : handleConfirm ⟨false, pi⟩ none out idStr e p
      = ({ isSubmitting := true, paymentInfo := pi },
         [Effect.notifyError errorTitle loginRequiredMessage,
          Effect.navigate 0 loginPath]) := by
    simp [handleConfirm, confirmPhase1, confirmResume]
  refine ⟨key, ?_, ?_, ?_, ?_⟩
  · rw [key]; rfl
  · rw [key]; rfl
  · rw [key]; rfl
  · intro calls
    rw [key]
    exact runConfirms_of_isSubmitting _ rfl calls

/-- Claim C2: at most one persistence call is in flight at any time. A
first `confirm()` with a draft and session runs synchronously up to the
`await saveGifting`, having set `isSubmitting` and issued exactly one save
call; a second `confirm()` arriving at that point (the state component of
the pending await) is a no-op with no effects; and the two gestures
together issue exactly one `saveGifting` call, whatever the first call's
outcome. -/
theorem C2_single_flight (info : PaymentDraft) (sess : Session)
    (sess2 : Option Session) (out out2 : SaveOutcome) (idStr idStr2 : String)
    (e p e2 p2 : Int) :
    confirmPhase1 ⟨false, some info⟩ (some sess) idStr e p
      = Pending.awaitSave (buildRecord sess info (resolveEvent idStr e) e p)
          { isSubmitting := true, paymentInfo := some info }
          [Effect.save (buildRecord sess info (resolveEvent idStr e) e p)]
    ∧ handleConfirm { isSubmitting := true, paymentInfo := some info }
        sess2 out2 idStr2 e2 p2
      = ({ isSubmitting := true, paymentInfo := some info }, [])
    ∧ countSaves
        ((confirmResume (confirmPhase1 ⟨false, some info⟩ (some sess) idStr e p)
            out e p).2
          ++ (handleConfirm { isSubmitting := true, paymentInfo := some info }
                sess2 out2 idStr2 e2 p2).2) = 1 := by
  refine ⟨confirmPhase1_submits info sess idStr e p,
    handleConfirm_of_isSubmitting _ rfl sess2 out2 idStr2 e2 p2, ?_⟩
  rw [confirmPhase1_submits info sess idStr e p,
    handleConfirm_of_isSubmitting _ rfl sess2 out2 idStr2 e2 p2]
  cases out <;>
    simp [confirmResume, countSaves, List.filter, Effect.isSave]

/-- Claim C3: when `saveGifting` returns an explicit failure result with a
non-empty reason, `confirm()` issues exactly one error notification whose
description is that reason, performs no navigation at all (in particular
none to the thank-you destination), and resets `isSubmitting`, so a
subsequent `confirm()` is accepted: it issues a `saveGifting` call rather
than being ignored. -/
theorem C3_failure_retryable (info : PaymentDraft) (sess sess3 : Session)
    (idStr : String) (e p : Int) (reason : String) (h : reason ≠ "") :
    handleConfirm ⟨false, some info⟩ (some sess)
        (SaveOutcome.failed (some reason)) idStr e p
      = ({ isSubmitting := false, paymentInfo := some info },
         [Effect.save (buildRecord sess info (resolveEvent idStr e) e p),
          Effect.notifyError errorTitle reason])
    ∧ countNotifies (handleConfirm ⟨false, some info⟩ (some sess)
        (SaveOutcome.failed (some reason)) idStr e p).2 = 1
    ∧ countNavs (handleConfirm ⟨false, some info⟩ (some sess)
        (SaveOutcome.failed (some reason)) idStr e p).2 = 0
    ∧ countSaves (handleConfirm ⟨false, some info⟩ (some sess3)
        SaveOutcome.ok idStr e p).2 = 1 := by
  have key : handleConfirm ⟨false, some info⟩ (some sess)
      (SaveOutcome.failed (some reason)) idStr e p
      = ({ isSubmitting := false, paymentInfo := some info },
         [Effect.save (buildRecord sess info (resolveEvent idStr e) e p),
          Effect.notifyError errorTitle reason]) := by
    rw [handleConfirm, confirmPhase1_submits info sess idStr e p]
    simp [confirmResume, failureMessage, h]
  refine ⟨key, ?_, ?_, ?_⟩
  · rw [key]; rfl
  · rw [key]; rfl
  · rw [handleConfirm, confirmPhase1_submits info sess3 idStr e p]
    simp [confirmResume, countSaves, List.filter, Effect.isSave]

/-- Claim C3 witness: the failure path at a concrete input, with reason
"quota exceeded". -/
theorem C3_failure_retryable_witness :
    ("quota exceeded" : String) ≠ ""
    ∧ handleConfirm ⟨false, some ⟨"Aoi", "3000", "頑張って"⟩⟩
          (some ⟨"u1", "Taro"⟩) (SaveOutcome.failed (some "quota exceeded"))
          "2" 2 7
        = ({ isSubmitting := false,
             paymentInfo := some ⟨"Aoi", "3000", "頑張って"⟩ },
           [Effect.save
              (buildRecord ⟨"u1", "Taro"⟩ ⟨"Aoi", "3000", "頑張って"⟩
                (resolveEvent "2" 2) 2 7),
            Effect.notifyError errorTitle "quota exceeded"]) :=
  ⟨by decide,
   (C3_failure_retryable ⟨"Aoi", "3000", "頑張って"⟩ ⟨"u1", "Taro"⟩
      ⟨"u1", "Taro"⟩ "2" 2 7 "quota exceeded" (by decide)).1⟩

/-- Claim C4: when the payment-draft source returns none, the initializer
issues exactly one navigation, to the draft-entry path for the given event
and performer, and zero `saveGifting` calls and zero notifications. -/
theorem C4_no_draft (e p : Int) :
    initPage none e p
      = ({ isSubmitting := false, paymentInfo := none },
         [Effect.navigate 0 (draftEntryPath e p)])
    ∧ countNavs (initPage none e p).2 = 1
    ∧ countSaves (initPage none e p).2 = 0
    ∧ countNotifies (initPage none e p).2 = 0 := by
  refine ⟨rfl, ?_, ?_, ?_⟩ <;> rfl

/-- Claim C5 counterexample: for the valid draft with empty comment, the
record handed to `saveGifting` has `comment = none`, not the draft's
comment `""`, so "the comment equals the draft comment" fails as a
universal statement over valid drafts. -/
theorem C5_counterexample :
    (handleConfirm ⟨false, some ⟨"Aoi", "3000", ""⟩⟩ (some ⟨"u1", "Taro"⟩)
        SaveOutcome.ok "2" 2 7).2
      = [Effect.save
           ⟨"u1", "Taro", "artist-7", "Aoi", 2, "5周年ライブin横アリ",
            some 3000, none⟩,
         Effect.navigate 500 "/events/2/performers/7/thanks"]
    ∧ (⟨"u1", "Taro", "artist-7", "Aoi", 2, "5周年ライブin横アリ",
          some 3000, none⟩ : GiftingRecord).comment ≠ some ("" : String) := by
  refine ⟨?_, by decide⟩
  rfl

/-- Claim C5 (amended): for every confirmation attempt with a draft and
session, `saveGifting` is called exactly once, with a record whose amount
is the integer parse of the draft's amount string, whose event name is the
resolved catalog title for the event id, whose artist id is the
`artist-` namespaced string of the numeric performer id, and whose comment
equals the draft comment when that is non-empty and is absent when the
draft comment is empty; on success exactly one navigation to the thank-you
path occurs, scheduled with a 500 ms (hence nonnegative) delay. -/
theorem C5_success (info : PaymentDraft) (sess : Session) (idStr : String)
    (e p : Int) :
    handleConfirm ⟨false, some info⟩ (some sess) SaveOutcome.ok idStr e p
      = ({ isSubmitting := true, paymentInfo := some info },
         [Effect.save
            { user_id := sess.email
              user_name := sess.name
              artist_id := "artist-" ++ toString p
              artist_name := info.performerName
              event_id := e
              event_name := (resolveEvent idStr e).title
              amount := parseIntJS info.amount
              comment := if info.comment = "" then none
                         else some info.comment },
          Effect.navigate 500 (thanksPath e p)])
    ∧ countSaves (handleConfirm ⟨false, some info⟩ (some sess)
        SaveOutcome.ok idStr e p).2 = 1
    ∧ countNavs (handleConfirm ⟨false, some info⟩ (some sess)
        SaveOutcome.ok idStr e p).2 = 1 := by
  have key : handleConfirm ⟨false, some info⟩ (some sess) SaveOutcome.ok
      idStr e p
      = ({ isSubmitting := true, paymentInfo := some info },
         [Effect.save (buildRecord sess info (resolveEvent idStr e) e p),
          Effect.navigate 500 (thanksPath e p)]) := by
    rw [handleConfirm, confirmPhase1_submits info sess idStr e p]
    rfl
  rw [key]
  refine ⟨?_, rfl, rfl⟩
  rfl

/-- Claim C6: the record handed to `saveGifting` carries no comment when
the draft comment is the empty string (`comment` is absent, not `""`), and
carries the draft comment as given when it is non-empty; this holds on
every run that reaches the persistence call, whatever its outcome. -/
theorem C6_comment_policy (info : PaymentDraft) (sess : Session)
    (out : SaveOutcome) (idStr : String) (e p : Int) :
    ∃ r : GiftingRecord,
      Effect.save r
        ∈ (handleConfirm ⟨false, some info⟩ (some sess) out idStr e p).2
      ∧ (info.comment = "" → r.comment = none)
      ∧ (info.comment ≠ "" → r.comment = some info.comment) := by
  refine ⟨buildRecord sess info (resolveEvent idStr e) e p, ?_, ?_, ?_⟩
  · rw [handleConfirm, confirmPhase1_submits info sess idStr e p]
    cases out <;> simp [confirmResume]
  · intro h; simp [buildRecord, h]
  · intro h; simp [buildRecord, h]

/-- Claim C6 witness: the concrete empty-comment and non-empty-comment
drafts, with the conditional conclusions discharged. -/
theorem C6_comment_policy_witness :
    (∃ r : GiftingRecord,
      Effect.save r
        ∈ (handleConfirm ⟨false, some ⟨"Aoi", "3000", ""⟩⟩
            (some ⟨"u1", "Taro"⟩) SaveOutcome.ok "2" 2 7).2
      ∧ ((⟨"Aoi", "3000", ""⟩ : PaymentDraft).comment = "" →
          r.comment = none)
      ∧ ((⟨"Aoi", "3000", ""⟩ : PaymentDraft).comment ≠ "" →
          r.comment = some (⟨"Aoi", "3000", ""⟩ : PaymentDraft).comment))
    ∧ (∃ r : GiftingRecord,
      Effect.save r
        ∈ (handleConfirm ⟨false, some ⟨"Aoi", "3000", "頑張って"⟩⟩
            (some ⟨"u1", "Taro"⟩) SaveOutcome.ok "2" 2 7).2
      ∧ ((⟨"Aoi", "3000", "頑張って"⟩ : PaymentDraft).comment = "" →
          r.comment = none)
      ∧ ((⟨"Aoi", "3000", "頑張って"⟩ : PaymentDraft).comment ≠ "" →
          r.comment = some (⟨"Aoi", "3000", "頑張って"⟩ : PaymentDraft).comment)) :=
  ⟨C6_comment_policy ⟨"Aoi", "3000", ""⟩ ⟨"u1", "Taro"⟩ SaveOutcome.ok "2" 2 7,
   C6_comment_policy ⟨"Aoi", "3000", "頑張って"⟩ ⟨"u1", "Taro"⟩
     SaveOutcome.ok "2" 2 7⟩

/-- Claim C7: for an event id absent from the static catalog the lookup
still yields the placeholder `{ id := eventId, title := "イベント" }`, the
record's event name is that placeholder title, and the persistence call is
still issued, exactly once, with the record built from the session, draft
and placeholder as usual. -/
theorem C7_unknown_event (info : PaymentDraft) (sess : Session)
    (out : SaveOutcome) (idStr : String) (e p : Int)
    (hc : lookupEvent idStr = none) :
    resolveEvent idStr e = ⟨e, "イベント"⟩
    ∧ ((handleConfirm ⟨false, some info⟩ (some sess) out idStr e p).2.filter
          Effect.isSave
        = [Effect.save (buildRecord sess info ⟨e, "イベント"⟩ e p)])
    ∧ (buildRecord sess info ⟨e, "イベント"⟩ e p).event_name = "イベント" := by
  have hres : resolveEvent idStr e = ⟨e, "イベント"⟩ := by
    simp [resolveEvent, hc]
  refine ⟨hres, ?_, rfl⟩
  rw [handleConfirm, confirmPhase1_submits info sess idStr e p, hres]
  cases out <;> simp [confirmResume, List.filter, Effect.isSave]

/-- Claim C7 witness: event id 5 is not in the catalog and resolves to the
placeholder. -/
theorem C7_unknown_event_witness :
    lookupEvent "5" = none ∧ resolveEvent "5" 5 = ⟨5, "イベント"⟩ :=
  ⟨by decide,
   (C7_unknown_event ⟨"Aoi", "3000", ""⟩ ⟨"u1", "Taro"⟩ SaveOutcome.ok
      "5" 5 7 (by decide)).1⟩

/-- Claim C8: a fault thrown by the awaited persistence call lands in the
catch block: `confirm()` returns normally (the embedding is a total
function into state and trace, no fault escapes), issues exactly one
error notification, with the generic message, performs no navigation,
resets `isSubmitting`, and a subsequent `confirm()` is accepted, issuing a
`saveGifting` call. -/
theorem C8_fault_handled (info : PaymentDraft) (sess sess2 : Session)
    (idStr : String) (e p : Int) :
    handleConfirm ⟨false, some info⟩ (some sess) SaveOutcome.fault idStr e p
      = ({ isSubmitting := false, paymentInfo := some info },
         [Effect.save (buildRecord sess info (resolveEvent idStr e) e p),
          Effect.notifyError errorTitle faultMessage])
    ∧ countNotifies (handleConfirm ⟨false, some info⟩ (some sess)
        SaveOutcome.fault idStr e p).2 = 1
    ∧ countNavs (handleConfirm ⟨false, some info⟩ (some sess)
        SaveOutcome.fault idStr e p).2 = 0
    ∧ countSaves (handleConfirm ⟨false, some info⟩ (some sess2)
        SaveOutcome.ok idStr e p).2 = 1 := by
  have key : handleConfirm ⟨false, some info⟩ (some sess) SaveOutcome.fault
      idStr e p
      = ({ isSubmitting := false, paymentInfo := some info },
         [Effect.save (buildRecord sess info (resolveEvent idStr e) e p),
          Effect.notifyError errorTitle faultMessage]) := by
    rw [handleConfirm, confirmPhase1_submits info sess idStr e p]
    rfl
  refine ⟨key, ?_, ?_, ?_⟩
  · rw [key]; rfl
  · rw [key]; rfl
  · rw [handleConfirm, confirmPhase1_submits info sess2 idStr e p]
    simp [confirmResume, countSaves, List.filter, Effect.isSave]

/-- Claim C9: a `confirm()` invoked with a session present but no
`paymentInfo` snapshot issues no save, no notification and no navigation,
yet sets `isSubmitting` and never clears it: every subsequent sequence of
confirmation gestures on the instance leaves the state unchanged and
issues no effect. -/
theorem C9_missing_snapshot_stuck (sess : Session) (out : SaveOutcome)
    (idStr : String) (e p : Int) :
    handleConfirm ⟨false, none⟩ (some sess) out idStr e p
      = ({ isSubmitting := true, paymentInfo := none }, [])
    ∧ ∀ calls : List ConfirmCall,
        runConfirms { isSubmitting := true, paymentInfo := none } calls
          = ({ isSubmitting := true, paymentInfo := none }, []) := by
  constructor
  · simp [handleConfirm, confirmPhase1, confirmResume]
  · intro calls
    exact runConfirms_of_isSubmitting _ rfl calls

/-- Claim C10: after a successful persistence call the `isSubmitting` flag
is still set (the success branch never clears it), and from that state any
sequence of further confirmation gestures is a no-op: no effect at all, in
particular zero further `saveGifting` calls. -/
theorem C10_success_stays_disabled (info : PaymentDraft) (sess : Session)
    (idStr : String) (e p : Int) :
    (handleConfirm ⟨false, some info⟩ (some sess) SaveOutcome.ok idStr e p).1
      = { isSubmitting := true, paymentInfo := some info }
    ∧ ∀ calls : List ConfirmCall,
        runConfirms (handleConfirm ⟨false, some info⟩ (some sess)
            SaveOutcome.ok idStr e p).1 calls
          = ((handleConfirm ⟨false, some info⟩ (some sess)
              SaveOutcome.ok idStr e p).1, [])
        ∧ countSaves (runConfirms (handleConfirm ⟨false, some info⟩
            (some sess) SaveOutcome.ok idStr e p).1 calls).2 = 0 := by
  have key : (handleConfirm ⟨false, some info⟩ (some sess) SaveOutcome.ok
      idStr e p).1
      = { isSubmitting := true, paymentInfo := some info } := by
    rw [handleConfirm, confirmPhase1_submits info sess idStr e p]
    rfl
  refine ⟨key, ?_⟩
  intro calls
  rw [key]
  have hrun := runConfirms_of_isSubmitting
    ({ isSubmitting := true, paymentInfo := some info }) rfl calls
  exact ⟨hrun, by rw [hrun]; rfl⟩

end EventGifting
